import Mathlib

/-!
Shallow embedding of the episode aggregation and chapter-synchronization
subsystem of src/src/controllers/episode.ts, together with theorems settling
the frozen claims about it.

Conventions of the embedding:
- ids are `String` (the storage layer uses string ids);
- timestamps are `Int` milliseconds since the epoch (`Date.getTime()`);
- the relational store is an explicit `DB` value threaded through the
  operations; TypeORM query builders become explicit filter/sort pipelines;
- the remote chapters fetch is a `FetchOutcome` parameter (network and JSON
  parse failures collapse into one outcome, exactly as the single surrounding
  try/catch in the source treats them);
- possible storage failures of the per-chapter create/update operations are
  a `MediaRefOpsOracle` parameter saying which operation throws.
-/

/-- Episode row: the columns episode.ts reads or writes. -/
structure Episode where
  id : String
  isPublic : Bool
  podcastId : String
  title : String
  description : String
  pubDate : Int
  pastHourTotalUniquePageviews : Nat
  pastDayTotalUniquePageviews : Nat
  pastWeekTotalUniquePageviews : Nat
  pastMonthTotalUniquePageviews : Nat
  pastYearTotalUniquePageviews : Nat
  pastAllTimeTotalUniquePageviews : Nat
  chaptersUrl : Option String
  chaptersUrlLastParsed : Option Int
  deriving Repr, DecidableEq

/-- MediaRef row (clip / official chapter): the columns episode.ts touches. -/
structure MediaRef where
  id : String
  episodeId : String
  startTime : Int
  endTime : Option Int
  title : String
  imageUrl : Option String
  linkUrl : Option String
  isOfficialChapter : Bool
  isPublic : Bool
  owner : String
  deriving Repr, DecidableEq

/-- Podcast row, reduced to what the episode queries join on. -/
structure Podcast where
  id : String
  categoryIds : List String
  deriving Repr, DecidableEq

/-- Row of a recency projection table (RecentEpisodeByCategory /
RecentEpisodeByPodcast): episodeId, the grouping key, pubDate. -/
structure RecentEpisode where
  episodeId : String
  groupId : String
  pubDate : Int
  deriving Repr, DecidableEq

/-- The relational store as the controller sees it. -/
structure DB where
  episodes : List Episode
  podcasts : List Podcast
  mediaRefs : List MediaRef
  recentEpisodesByCategory : List RecentEpisode
  recentEpisodesByPodcast : List RecentEpisode
  nextMediaRefId : Nat
  deriving Repr, DecidableEq

/-- One entry of the `chapters` array of the remote chapters JSON document:
`{startTime, title, img?, url?}`. -/
structure RemoteChapter where
  startTime : Int
  title : String
  img : Option String
  url : Option String
  deriving Repr, DecidableEq

/-- Outcome of `request(chaptersUrl)` followed by `JSON.parse`: the request or
the parse throws (one catch covers both in the source), or the parsed object
has no truthy `chapters` field, or it yields a `chapters` array. -/
inductive FetchOutcome where
  | failure
  | noChaptersField
  | chapters (cs : List RemoteChapter)
  deriving Repr, DecidableEq

/-- Which per-chapter storage operations throw: `updateFails` is keyed by the
media reference id being updated, `createFails` by the startTime of the remote
chapter being created. -/
structure MediaRefOpsOracle where
  updateFails : String → Bool
  createFails : Int → Bool

instance {ε α : Type} [DecidableEq ε] [DecidableEq α] : DecidableEq (Except ε α) := fun x y =>
  match x, y with
  | .error a, .error b =>
    if h : a = b then isTrue (h ▸ rfl) else isFalse fun hh => h (Except.error.inj hh)
  | .ok a, .ok b =>
    if h : a = b then isTrue (h ▸ rfl) else isFalse fun hh => h (Except.ok.inj hh)
  | .error _, .ok _ => isFalse fun hh => Except.noConfusion hh
  | .ok _, .error _ => isFalse fun hh => Except.noConfusion hh

/-- Oracle under which no per-chapter operation throws. -/
def noFailOracle : MediaRefOpsOracle :=
  { updateFails := fun _ => false, createFails := fun _ => false }

/-- Modelled from the spec: the global super-user identity owning
system-created chapters comes from configuration (`config.superUserId`,
outside the repository's files). Its value is opaque to the core. -/
def superUserId : String := "superUserId"

/-- Modelled from the spec: `updateMediaRef` (controllers/mediaRef, not among
the repository's files) updates the stored media reference with the given id,
setting the provided fields. The suppression call passes the chapter's own id,
isOfficialChapter and startTime unchanged and `isPublic: false`, so its net
effect is clearing `isPublic`. -/
def setMediaRefNotPublic (db : DB) (mid : String) : DB :=
  { db with
    mediaRefs := db.mediaRefs.map fun m =>
      if m.id == mid then { m with isPublic := false } else m }

/-- Modelled from the spec: `updateMediaRef` applied with the field set the
new-chapter branch passes (episode.ts lines 313-322): imageUrl, linkUrl,
startTime, title from the remote chapter, `isOfficialChapter: true`,
`isPublic: true`, and `episodeId` set to the synchronized episode's id. -/
def applyChapterUpdate (db : DB) (mid : String) (c : RemoteChapter) (epId : String) : DB :=
  { db with
    mediaRefs := db.mediaRefs.map fun m =>
      if m.id == mid then
        { m with
          imageUrl := c.img
          isOfficialChapter := true
          isPublic := true
          linkUrl := c.url
          startTime := c.startTime
          title := c.title
          episodeId := epId }
      else m }

/-- Modelled from the spec: `createMediaRef` (controllers/mediaRef, not among
the repository's files) persists a new media reference with the passed fields
(episode.ts lines 324-333) and a fresh id. -/
def applyChapterCreate (db : DB) (c : RemoteChapter) (epId : String) : DB :=
  { db with
    nextMediaRefId := db.nextMediaRefId + 1
    mediaRefs := db.mediaRefs ++
      [{ id := "generated" ++ toString db.nextMediaRefId
         episodeId := epId
         startTime := c.startTime
         endTime := none
         title := c.title
         imageUrl := c.img
         linkUrl := c.url
         isOfficialChapter := true
         isPublic := true
         owner := superUserId }] }

/-- The update of `chaptersUrlLastParsed` performed before the fetch
(episode.ts line 281): `episodeRepository.update(episode.id, ...)`. -/
def setChaptersUrlLastParsed (db : DB) (epId : String) (t : Int) : DB :=
  { db with
    episodes := db.episodes.map fun e =>
      if e.id == epId then { e with chaptersUrlLastParsed := some t } else e }

/-- JavaScript truthiness of the `chaptersUrl` column: null and the empty
string are falsy. -/
def chaptersUrlPresent : Option String → Bool
  | none => false
  | some u => u != ""

/-- The bound computed at episode.ts line 276:
`new Date().getTime() + (1 * 12 * 60 * 60 * 1000)`. -/
def halfDay (now : Int) : Int := now + 1 * 12 * 60 * 60 * 1000

/-- The guard of the remote-sync block (episode.ts line 279):
`chaptersUrl && (!chaptersUrlLastParsed || halfDay < chaptersUrlLastParsedDate)`. -/
def shouldSyncChapters (ep : Episode) (now : Int) : Bool :=
  chaptersUrlPresent ep.chaptersUrl &&
    (match ep.chaptersUrlLastParsed with
     | none => true
     | some v => decide (halfDay now < v))

/-- The suppression loop (episode.ts lines 300-305): each dead chapter is
updated to non-public via `updateMediaRef`, with no per-item try/catch. A
throwing update leaves the store as it was and aborts the loop (the exception
reaches the enclosing catch). Returns the store and whether it aborted. -/
def suppressDeadChapters (o : MediaRefOpsOracle) : DB → List MediaRef → DB × Bool
  | db, [] => (db, false)
  | db, d :: rest =>
    if o.updateFails d.id then (db, true)
    else suppressDeadChapters o (setMediaRefNotPublic db d.id) rest

/-- The new-chapter loop (episode.ts lines 307-338): per remote chapter,
update the existing official chapter sharing its startTime when one exists
(with a truthy id), otherwise create a new official chapter; each iteration
has its own try/catch, so a throwing operation is skipped and the loop
continues. `existing` is the snapshot taken before the suppression loop. -/
def processNewChapters (o : MediaRefOpsOracle) (epId : String) (existing : List MediaRef) :
    DB → List RemoteChapter → DB
  | db, [] => db
  | db, c :: rest =>
    let db1 :=
      match existing.find? (fun x => x.startTime == c.startTime) with
      | some ex =>
        if ex.id == "" then
          if o.createFails c.startTime then db else applyChapterCreate db c epId
        else
          if o.updateFails ex.id then db else applyChapterUpdate db ex.id c epId
      | none =>
        if o.createFails c.startTime then db else applyChapterCreate db c epId
    processNewChapters o epId existing db1 rest

/-- The body of the remote-sync try block (episode.ts lines 280-342):
mark `chaptersUrlLastParsed = now`, fetch and parse; on a `chapters` array,
snapshot every official chapter in the store (the query at lines 286-292 has
no episode filter), suppress the ones missing from the remote document, then
reconcile each remote chapter. A document-level failure, or an exception from
the suppression loop, lands in the catch that ends the block. -/
def syncFromRemote (db : DB) (now : Int) (fetch : FetchOutcome) (o : MediaRefOpsOracle)
    (epRowId : String) (epId : String) : DB :=
  let db1 := setChaptersUrlLastParsed db epRowId now
  match fetch with
  | .failure => db1
  | .noChaptersField => db1
  | .chapters newChapters =>
    let existingChapters := db1.mediaRefs.filter fun m => m.isOfficialChapter
    let deadChapters := existingChapters.filter fun x =>
      newChapters.all fun y => y.startTime != x.startTime
    let res := suppressDeadChapters o db1 deadChapters
    if res.2 then res.1
    else processNewChapters o epId existingChapters res.1 newChapters

/-- Official chapters are returned ordered by startTime ascending. -/
def chapterLE (a b : MediaRef) : Prop := a.startTime ≤ b.startTime

instance : DecidableRel chapterLE := fun a b => Int.decLe a.startTime b.startTime

instance : IsTotal MediaRef chapterLE :=
  ⟨fun a b => Int.le_total a.startTime b.startTime⟩

instance : IsTrans MediaRef chapterLE :=
  ⟨fun _ _ _ hab hbc => Int.le_trans hab hbc⟩

/-- The rows of the final query (episode.ts lines 345-359): official chapters
of the episode, regardless of isPublic. -/
def officialChaptersOf (db : DB) (epId : String) : List MediaRef :=
  db.mediaRefs.filter fun m => m.isOfficialChapter && m.episodeId == epId

/-- The final query's result list, ordered by startTime ascending. -/
def officialChaptersSorted (db : DB) (epId : String) : List MediaRef :=
  List.insertionSort chapterLE (officialChaptersOf db epId)

/-- retrieveLatestChapters (episode.ts lines 259-362). Returns the post-run
store together with the returned `(chapters, count)` pair, or the error thrown
when the episode id does not exist. -/
def retrieveLatestChapters (db : DB) (now : Int) (fetch : FetchOutcome)
    (o : MediaRefOpsOracle) (id : String) : Except String (DB × List MediaRef × Nat) :=
  match db.episodes.find? (fun e => e.id == id) with
  | none => Except.error "Episode not found"
  | some ep =>
    let db1 := if shouldSyncChapters ep now then syncFromRemote db now fetch o ep.id id else db
    Except.ok (db1, officialChaptersSorted db1 id, (officialChaptersSorted db1 id).length)

/-! ### Episode listings -/

/-- The query-builder state as the listing paths compose it: the base
projection of `generateEpisodeSelects` plus the predicates each path adds.
`limitSort` records the popularity-window predicate added by
`limitEpisodesQuerySize` (the sort key it matched), `idFilter` the
`episode.id IN (:...recentEpisodeIds)` predicate of the recency path. -/
structure EpisodesQuery where
  includePodcast : Bool
  searchText : String
  podcastIdsFilter : Option (List String)
  categoryIdsFilter : Option (List String)
  requirePublic : Bool
  limitSort : Option String
  idFilter : Option (List String)
  skip : Nat
  take : Nat
  deriving Repr, DecidableEq

/-- generateEpisodeSelects (episode.ts lines 66-104): base query joined to
podcast, with the case-insensitive title LIKE filter when searchAllFieldsText
is truthy and a match-all clause otherwise. -/
def generateEpisodeSelects (includePodcast : Bool) (searchAllFieldsText : String) : EpisodesQuery :=
  { includePodcast := includePodcast
    searchText := searchAllFieldsText
    podcastIdsFilter := none
    categoryIdsFilter := none
    requirePublic := false
    limitSort := none
    idFilter := none
    skip := 0
    take := 0 }

/-- limitEpisodesQuerySize (episode.ts lines 41-64): when shouldLimit, add the
window predicate matching the sort key, and nothing for any other sort. -/
def limitEpisodesQuerySize (qb : EpisodesQuery) (shouldLimit : Bool) (sort : String) :
    EpisodesQuery :=
  if shouldLimit then
    if sort = "top-past-hour" then { qb with limitSort := some sort }
    else if sort = "top-past-day" then { qb with limitSort := some sort }
    else if sort = "top-past-week" then { qb with limitSort := some sort }
    else if sort = "top-past-month" then { qb with limitSort := some sort }
    else if sort = "top-past-year" then { qb with limitSort := some sort }
    else if sort = "top-all-time" then { qb with limitSort := some sort }
    else if sort = "most-recent" then { qb with limitSort := some sort }
    else qb
  else qb

/-- Evaluation of the predicate limitEpisodesQuerySize added: nonzero
pageviews in the matching rolling window, or pubDate within the last day for
most-recent (the source embeds `now - 1 day` as a date string; the embedding
compares the timestamps directly). -/
def limitPredicateHolds (now : Int) (sort : String) (e : Episode) : Bool :=
  if sort = "top-past-hour" then e.pastHourTotalUniquePageviews > 0
  else if sort = "top-past-day" then e.pastDayTotalUniquePageviews > 0
  else if sort = "top-past-week" then e.pastWeekTotalUniquePageviews > 0
  else if sort = "top-past-month" then e.pastMonthTotalUniquePageviews > 0
  else if sort = "top-past-year" then e.pastYearTotalUniquePageviews > 0
  else if sort = "top-all-time" then e.pastAllTimeTotalUniquePageviews > 0
  else if sort = "most-recent" then decide (now - 1 * 24 * 60 * 60 * 1000 < e.pubDate)
  else true

/-- The title filter of generateEpisodeSelects: `'true'` when the search text
is falsy, otherwise `LOWER(episode.title) LIKE '%text.toLowerCase().trim()%'`. -/
def likeTitleMatch (title searchText : String) : Bool :=
  if searchText = "" then true
  else decide (List.IsInfix (searchText.toLower.trim).toList title.toLower.toList)

/-- Row predicate of the composed episode query: the inner join to podcast,
the title filter, the category join condition, the podcastId / isPublic /
window / id-set predicates the paths add. -/
def episodeMatches (db : DB) (now : Int) (q : EpisodesQuery) (e : Episode) : Bool :=
  (db.podcasts.any fun p => p.id == e.podcastId) &&
  likeTitleMatch e.title q.searchText &&
  (match q.categoryIdsFilter with
   | none => true
   | some cids =>
     db.podcasts.any fun p => p.id == e.podcastId && p.categoryIds.any fun c => cids.contains c) &&
  (match q.podcastIdsFilter with
   | none => true
   | some pids => pids.contains e.podcastId) &&
  (!q.requirePublic || e.isPublic) &&
  (match q.limitSort with
   | none => true
   | some s => limitPredicateHolds now s e) &&
  (match q.idFilter with
   | none => true
   | some ids => ids.contains e.id)

/-- cleanEpisodes (episode.ts lines 107-112) on one row: truncate the
description to its first 2500 characters ('' when falsy; `substr(0, 2500)`
is modelled over the character list). -/
def cleanEpisode (e : Episode) : Episode :=
  { e with description := String.mk (e.description.toList.take 2500) }

/-- cleanEpisodes over a result list. -/
def cleanEpisodes (l : List Episode) : List Episode := l.map cleanEpisode

/-- What a listing path returns, with the final episode-table query it built
and whether it actually executed it (the recency path can return before
touching the episode table). -/
structure ListingResult where
  episodes : List Episode
  totalCount : Nat
  finalQuery : EpisodesQuery
  ranEpisodeQuery : Bool
  deriving Repr, DecidableEq

/-- Modelled from the spec: `getQueryOrderColumn` (~/lib/utility, not among
the repository's files) resolves the sort key to a (column, direction) pair;
the spec does not pin the resulting row order and no claim depends on it, so
the page is taken from the matching rows in storage order. -/
def handleGetEpisodesWithOrdering (db : DB) (now : Int) (qb : EpisodesQuery)
    (skip takeCount : Nat) : ListingResult :=
  let qb1 := { qb with skip := skip, take := takeCount }
  let matching := db.episodes.filter (episodeMatches db now qb1)
  let page := (matching.drop skip).take takeCount
  { episodes := cleanEpisodes page
    totalCount := matching.length
    finalQuery := qb1
    ranEpisodeQuery := true }

/-- Which recency projection handleMostRecentEpisodesQuery reads. -/
inductive RecencyKind where
  | categoriesIds
  | podcastIds
  deriving Repr, DecidableEq

/-- The projection table selected by the `type` argument. -/
def recencyRows (db : DB) : RecencyKind → List RecentEpisode
  | .categoriesIds => db.recentEpisodesByCategory
  | .podcastIds => db.recentEpisodesByPodcast

/-- Ordering of the projection query: pubDate descending. -/
def recentGE (a b : RecentEpisode) : Prop := b.pubDate ≤ a.pubDate

instance : DecidableRel recentGE := fun a b => Int.decLe b.pubDate a.pubDate

/-- handleMostRecentEpisodesQuery (episode.ts lines 114-141): page the
projection filtered to the id set (count ignores the pagination), return
`([], 0)` on zero total matches and `([], totalCount)` on an empty page,
otherwise narrow the episode query to the page's episode ids and run it
(without pagination or ordering of its own). -/
def handleMostRecentEpisodesQuery (db : DB) (now : Int) (qb : EpisodesQuery)
    (k : RecencyKind) (ids : List String) (skip takeCount : Nat) : ListingResult :=
  let rows := (recencyRows db k).filter fun r => ids.contains r.groupId
  let pageRows := ((List.insertionSort recentGE rows).drop skip).take takeCount
  let totalCount := rows.length
  if totalCount = 0 then
    { episodes := [], totalCount := 0, finalQuery := qb, ranEpisodeQuery := false }
  else
    let recentEpisodeIds := pageRows.map (·.episodeId)
    if recentEpisodeIds.length = 0 then
      { episodes := [], totalCount := totalCount, finalQuery := qb, ranEpisodeQuery := false }
    else
      let qb1 := { qb with idFilter := some recentEpisodeIds }
      let eps := db.episodes.filter (episodeMatches db now qb1)
      { episodes := cleanEpisodes eps
        totalCount := totalCount
        finalQuery := qb1
        ranEpisodeQuery := true }

/-- The caller-facing query object of the listing entry points. -/
structure ListQuery where
  includePodcast : Bool
  searchAllFieldsText : String
  skip : Nat
  take : Nat
  sort : String
  categories : String
  podcastId : String
  deriving Repr, DecidableEq

/-- Splitting on commas, as JavaScript `s.split(',')` does: accumulates the
current segment and emits it at each separator and at the end. -/
def splitCommaAux : List Char → List Char → List String
  | [], acc => [String.mk acc.reverse]
  | c :: rest, acc =>
    if c = ',' then String.mk acc.reverse :: splitCommaAux rest []
    else splitCommaAux rest (c :: acc)

/-- The `ids && ids.split(',') || []` parsing of the comma-separated id
parameters: the empty string is falsy and yields the empty list. -/
def parseIdList (s : String) : List String :=
  if s = "" then [] else splitCommaAux s.toList []

/-- getEpisodes (episode.ts lines 160-169): always limit, always public-only,
direct query path. -/
def getEpisodes (db : DB) (now : Int) (query : ListQuery) : ListingResult :=
  let qb := generateEpisodeSelects query.includePodcast query.searchAllFieldsText
  let shouldLimit := true
  let qb1 := limitEpisodesQuerySize qb shouldLimit query.sort
  let qb2 := { qb1 with requirePublic := true }
  handleGetEpisodesWithOrdering db now qb2 query.skip query.take

/-- getEpisodesByCategoryIds (episode.ts lines 171-193). -/
def getEpisodesByCategoryIds (db : DB) (now : Int) (query : ListQuery) : ListingResult :=
  let categoriesIds := parseIdList query.categories
  let qb := generateEpisodeSelects query.includePodcast query.searchAllFieldsText
  if query.sort = "most-recent" then
    handleMostRecentEpisodesQuery db now qb .categoriesIds categoriesIds query.skip query.take
  else
    let qb1 := { qb with categoryIdsFilter := some categoriesIds }
    let shouldLimit := true
    let qb2 := limitEpisodesQuerySize qb1 shouldLimit query.sort
    let qb3 := { qb2 with requirePublic := true }
    handleGetEpisodesWithOrdering db now qb3 query.skip query.take

/-- getEpisodesByPodcastId (episode.ts lines 195-201): the single-podcast
scoped query, public-only, no limiting. -/
def getEpisodesByPodcastId (db : DB) (now : Int) (query : ListQuery)
    (qb : EpisodesQuery) (podcastIds : List String) : ListingResult :=
  let qb1 := { qb with podcastIdsFilter := some podcastIds }
  let qb2 := { qb1 with requirePublic := true }
  handleGetEpisodesWithOrdering db now qb2 query.skip query.take

/-- getEpisodesByPodcastIds (episode.ts lines 203-223). -/
def getEpisodesByPodcastIds (db : DB) (now : Int) (query : ListQuery) : ListingResult :=
  let podcastIds := parseIdList query.podcastId
  let qb := generateEpisodeSelects query.includePodcast query.searchAllFieldsText
  if podcastIds.length = 1 then
    getEpisodesByPodcastId db now query qb podcastIds
  else if query.sort = "most-recent" then
    handleMostRecentEpisodesQuery db now qb .podcastIds podcastIds query.skip query.take
  else
    let qb1 := { qb with podcastIdsFilter := some podcastIds }
    let shouldLimit := decide (podcastIds.length > 10)
    let qb2 := limitEpisodesQuerySize qb1 shouldLimit query.sort
    let qb3 := { qb2 with requirePublic := true }
    handleGetEpisodesWithOrdering db now qb3 query.skip query.take

/-! ### Dead-episode reaper -/

/-- Eligibility under the query of getDeadEpisodes (episode.ts lines 225-242):
non-public and, through the left join's null check, no media reference rows
attached. -/
def isDeadEpisode (db : DB) (e : Episode) : Bool :=
  !e.isPublic && db.mediaRefs.all fun m => m.episodeId != e.id

/-- getDeadEpisodes: the eligible episodes, capped by `limit(100)`. -/
def getDeadEpisodes (db : DB) : List Episode :=
  (db.episodes.filter (isDeadEpisode db)).take 100

/-- removeEpisodes (episode.ts lines 252-257): remove each given row. -/
def removeEpisodes (db : DB) (eps : List Episode) : DB :=
  { db with episodes := db.episodes.filter fun e => !(eps.any fun d => d.id == e.id) }

/-- removeDeadEpisodes (episode.ts lines 244-250): one batch pass; the
returned flag is `deadEpisodes.length === 100` (the 1-second sleep is a
throttle with no effect on the state). -/
def removeDeadEpisodes (db : DB) : DB × Bool :=
  let deadEpisodes := getDeadEpisodes db
  (removeEpisodes db deadEpisodes, deadEpisodes.length == 100)

/-! ### Fixtures -/

/-- Fixture: an episode row with neutral listing fields. -/
def baseEpisode (id : String) (url : Option String) (lastParsed : Option Int) : Episode :=
  { id := id
    isPublic := true
    podcastId := "pod1"
    title := "an episode"
    description := ""
    pubDate := 0
    pastHourTotalUniquePageviews := 0
    pastDayTotalUniquePageviews := 0
    pastWeekTotalUniquePageviews := 0
    pastMonthTotalUniquePageviews := 0
    pastYearTotalUniquePageviews := 0
    pastAllTimeTotalUniquePageviews := 0
    chaptersUrl := url
    chaptersUrlLastParsed := lastParsed }

/-- Fixture: an official, public chapter row. -/
def baseChapter (id epId : String) (st : Int) (title : String) : MediaRef :=
  { id := id
    episodeId := epId
    startTime := st
    endTime := none
    title := title
    imageUrl := none
    linkUrl := none
    isOfficialChapter := true
    isPublic := true
    owner := "someUser" }

/-- Fixture: a store with no rows at all. -/
def emptyDB : DB :=
  { episodes := []
    podcasts := []
    mediaRefs := []
    recentEpisodesByCategory := []
    recentEpisodesByPodcast := []
    nextMediaRefId := 0 }

/-- Fixture: the invocation time of the synchronizer runs below. -/
def syncNow : Int := 1000000000000

/-- Fixture: a non-empty chapters document location. -/
def chapterDocUrl : Option String := some "https://example.org/chapters.json"

/-- Fixture: the remote document's single chapter {startTime: 10, title: "A"}. -/
def remoteChapterA : RemoteChapter := { startTime := 10, title := "A", img := none, url := none }

/-- Fixture: episode whose chapters were last parsed 13 hours before now —
older than the 12-hour freshness bound. -/
def staleEpisode : Episode :=
  baseEpisode "e1" chapterDocUrl (some (syncNow - 13 * 60 * 60 * 1000))

/-- Fixture: store holding `staleEpisode` and one stored official chapter. -/
def staleDB : DB :=
  { emptyDB with
    episodes := [staleEpisode]
    mediaRefs := [baseChapter "m1" "e1" 10 "Old"] }

/-- Fixture: episode whose `chaptersUrlLastParsed` lies 13 hours in the
future — the only non-null timestamp the source's comparison treats as stale. -/
def futureParsedEpisode : Episode :=
  baseEpisode "e1" chapterDocUrl (some (syncNow + 13 * 60 * 60 * 1000))

/-- Fixture: `staleDB` with the future-parsed episode instead. -/
def futureParsedDB : DB := { staleDB with episodes := [futureParsedEpisode] }

/-- C1: the remote sync is skipped for an episode whose `chaptersUrlLastParsed`
is 13 hours old (older than the 12-hour bound): the run leaves the store
exactly as it was — `chaptersUrlLastParsed` is not touched and the stored
chapter keeps its old title, although the remote document carries a new one
— while an episode whose timestamp lies 13 hours in the future does sync.
The source's guard at episode.ts line 279 compares `now + 12h <
chaptersUrlLastParsed`, the reverse of its own comment at lines 274-275
("update the latest chapters only once every 12 hours"). -/
theorem freshnessGate_skips_stale_fetches_future :
    retrieveLatestChapters staleDB syncNow (.chapters [remoteChapterA]) noFailOracle "e1"
      = Except.ok (staleDB, [baseChapter "m1" "e1" 10 "Old"], 1)
    ∧ shouldSyncChapters staleEpisode syncNow = false
    ∧ shouldSyncChapters futureParsedEpisode syncNow = true
    ∧ retrieveLatestChapters futureParsedDB syncNow (.chapters [remoteChapterA]) noFailOracle "e1"
      = Except.ok
          ({ futureParsedDB with
             episodes := [{ futureParsedEpisode with chaptersUrlLastParsed := some syncNow }]
             mediaRefs := [{ baseChapter "m1" "e1" 10 "Old" with title := "A" }] },
           [{ baseChapter "m1" "e1" 10 "Old" with title := "A" }], 1) := by
  refine ⟨by decide, by decide, by decide, by decide⟩

/-- Fixture: a store with two episodes, where "e2" owns an official public
chapter at startTime 99 and "e1" (with a chapters url, never parsed) owns
none. -/
def twoEpisodesDB : DB :=
  { emptyDB with
    episodes := [baseEpisode "e1" chapterDocUrl none, baseEpisode "e2" none none]
    mediaRefs := [baseChapter "m2" "e2" 99 "Other"] }

/-- C2: running the synchronizer on episode "e1" suppresses episode "e2"'s
official chapter: the post-run store maps "m2" (owned by "e2") to
isPublic = false, because the existing-chapters query at episode.ts lines
286-292 filters only on `isOfficialChapter = TRUE` and never on the episode.
Before the run that chapter was public. -/
theorem chapterSync_mutates_other_episodes :
    ((retrieveLatestChapters twoEpisodesDB syncNow (.chapters [remoteChapterA])
        noFailOracle "e1").map
      fun r => r.1.mediaRefs.map fun m => (m.id, m.episodeId, m.isPublic))
      = Except.ok [("m2", "e2", false), ("generated0", "e1", true)]
    ∧ (baseChapter "m2" "e2" 99 "Other").isPublic = true := by
  refine ⟨by decide, by decide⟩

/-- Fixture: the spec's worked example — remote [{startTime:10,title:"A"}],
local official chapters [{startTime:10,title:"Old"},{startTime:20,title:"B"}],
both of episode "e1". -/
def diffExampleDB : DB :=
  { emptyDB with
    episodes := [baseEpisode "e1" chapterDocUrl none]
    mediaRefs := [baseChapter "m1" "e1" 10 "Old", baseChapter "m2" "e1" 20 "B"] }

/-- C3: on the spec's worked example, after the run the chapter at
startTime 10 has title "A" and isPublic = true, the chapter at startTime 20
has isPublic = false, and both media references are still stored (none was
deleted); the returned list shows exactly that state. -/
theorem chapterSync_diff_example :
    retrieveLatestChapters diffExampleDB syncNow (.chapters [remoteChapterA]) noFailOracle "e1"
      = Except.ok
          ({ diffExampleDB with
             episodes := [{ baseEpisode "e1" chapterDocUrl none with
                            chaptersUrlLastParsed := some syncNow }]
             mediaRefs := [{ baseChapter "m1" "e1" 10 "Old" with title := "A" },
                           { baseChapter "m2" "e1" 20 "B" with isPublic := false }] },
           [{ baseChapter "m1" "e1" 10 "Old" with title := "A" },
            { baseChapter "m2" "e1" 20 "B" with isPublic := false }], 2) := by
  decide

/-- Fixture: episode "e1" with two stored official chapters at startTimes 50
and 60, both absent from the remote document (both dead). -/
def twoDeadChaptersDB : DB :=
  { emptyDB with
    episodes := [baseEpisode "e1" chapterDocUrl none]
    mediaRefs := [baseChapter "d1" "e1" 50 "X", baseChapter "d2" "e1" 60 "Y"] }

/-- Fixture: the storage update of media reference "d1" throws. -/
def failUpdateD1 : MediaRefOpsOracle :=
  { updateFails := fun i => i == "d1", createFails := fun _ => false }

/-- C4 counterexample: a failure while suppressing dead chapter "d1" is NOT
isolated — it aborts the processing of every remaining chapter of the
invocation: sibling dead chapter "d2" stays public (it should have been
suppressed) and the remote chapter at startTime 10 is never created (the
post-run store holds exactly the two old rows), even though the call itself
still returns ok. -/
theorem suppressionFailure_aborts_siblings :
    ((retrieveLatestChapters twoDeadChaptersDB syncNow (.chapters [remoteChapterA])
        failUpdateD1 "e1").map
      fun r => r.1.mediaRefs.map fun m => (m.id, m.startTime, m.isPublic))
      = Except.ok [("d1", 50, true), ("d2", 60, true)] := by
  decide

/-- Fixture: remote document with chapters at startTimes 10 and 30. -/
def remoteChapterC : RemoteChapter := { startTime := 30, title := "C", img := none, url := none }

/-- Fixture: the storage update of media reference "m1" throws. -/
def failUpdateM1 : MediaRefOpsOracle :=
  { updateFails := fun i => i == "m1", createFails := fun _ => false }

/-- C4 amended: the call never fails once the episode exists, whatever the
fetch outcome and whichever per-chapter operations throw; and a failure
inside the remote-chapter create/update loop is isolated — with the update
of "m1" (startTime 10) throwing, the run still suppresses dead chapter "m2"
and still creates the sibling remote chapter at startTime 30. Only the
dead-chapter suppression loop lacks per-item isolation. -/
theorem newChapterFailures_isolated_call_never_fails :
    (∀ (db : DB) (now : Int) (f : FetchOutcome) (o : MediaRefOpsOracle) (id : String),
      (db.episodes.find? fun e => e.id == id).isSome →
        (retrieveLatestChapters db now f o id).isOk = true)
    ∧ ((retrieveLatestChapters diffExampleDB syncNow
          (.chapters [remoteChapterA, remoteChapterC]) failUpdateM1 "e1").map
        fun r => r.1.mediaRefs.map fun m => (m.id, m.startTime, m.title, m.isPublic))
        = Except.ok [("m1", 10, "Old", true), ("m2", 20, "B", false),
                     ("generated0", 30, "C", true)] := by
  constructor
  · intro db now f o id h
    rw [retrieveLatestChapters.eq_def]
    cases hfind : db.episodes.find? fun e => e.id == id with
    | none => rw [hfind] at h; simp at h
    | some ep => rfl
  · decide

/-! ### Invariants of the synchronizer's state updates -/

/-- The suppression loop never touches the episode table. -/
lemma suppressDeadChapters_episodes (o : MediaRefOpsOracle) (l : List MediaRef) (db : DB) :
    (suppressDeadChapters o db l).1.episodes = db.episodes := by
  induction l generalizing db with
  | nil => rfl
  | cons d rest ih =>
    unfold suppressDeadChapters
    by_cases h : o.updateFails d.id = true
    · simp [h]
    · simp only [h]
      simpa [h, setMediaRefNotPublic] using ih (setMediaRefNotPublic db d.id)

/-- The new-chapter loop never touches the episode table. -/
lemma processNewChapters_episodes (o : MediaRefOpsOracle) (epId : String)
    (ex : List MediaRef) (cs : List RemoteChapter) (db : DB) :
    (processNewChapters o epId ex db cs).episodes = db.episodes := by
  induction cs generalizing db with
  | nil => rfl
  | cons c rest ih =>
    unfold processNewChapters
    cases hf : ex.find? (fun x => x.startTime == c.startTime) with
    | none =>
      by_cases hc : o.createFails c.startTime = true <;>
        simp [hf, hc, ih, applyChapterCreate]
    | some m =>
      cases hid : m.id == "" with
      | true =>
        by_cases hc : o.createFails c.startTime = true <;>
          simp [hf, hid, hc, ih, applyChapterCreate]
      | false =>
        by_cases hu : o.updateFails m.id = true <;>
          simp [hf, hid, hu, ih, applyChapterUpdate]

/-- The whole remote-sync block changes the episode table exactly as the
initial `chaptersUrlLastParsed` update does. -/
lemma syncFromRemote_episodes (db : DB) (now : Int) (f : FetchOutcome)
    (o : MediaRefOpsOracle) (epRowId epId : String) :
    (syncFromRemote db now f o epRowId epId).episodes =
      (setChaptersUrlLastParsed db epRowId now).episodes := by
  unfold syncFromRemote
  cases f with
  | failure => rfl
  | noChaptersField => rfl
  | chapters cs =>
    simp only []
    split
    · exact suppressDeadChapters_episodes ..
    · rw [processNewChapters_episodes]
      exact suppressDeadChapters_episodes ..

/-- find? over a map whose function preserves the id being searched. -/
lemma find?_map_of_id_preserved (g : Episode → Episode) (hg : ∀ e, (g e).id = e.id)
    (l : List Episode) (tid : String) :
    (l.map g).find? (fun e => e.id == tid) = (l.find? (fun e => e.id == tid)).map g := by
  rw [List.find?_map]
  have hfun : ((fun e => e.id == tid) ∘ g) = (fun e => e.id == tid) := by
    funext e
    simp [Function.comp, hg]
  rw [hfun]

/-- How the `chaptersUrlLastParsed` update shows through an episode lookup. -/
lemma find?_setChaptersUrlLastParsed (db : DB) (epId tid : String) (t : Int) :
    (setChaptersUrlLastParsed db epId t).episodes.find? (fun e => e.id == tid) =
      (db.episodes.find? (fun e => e.id == tid)).map
        (fun e => if e.id == epId then { e with chaptersUrlLastParsed := some t } else e) := by
  unfold setChaptersUrlLastParsed
  exact find?_map_of_id_preserved _
    (fun e => by cases h : e.id == epId <;> simp [h]) _ _

/-- Once false, the sync guard stays false at any later time: raising `now`
only raises the `now + 12h` bound it compares against. -/
lemma shouldSyncChapters_false_of_le {ep : Episode} {t1 t2 : Int} (hle : t1 ≤ t2)
    (h : shouldSyncChapters ep t1 = false) : shouldSyncChapters ep t2 = false := by
  unfold shouldSyncChapters halfDay at *
  cases hu : chaptersUrlPresent ep.chaptersUrl with
  | false => simp [hu]
  | true =>
    rw [hu] at h
    simp only [Bool.true_and] at h ⊢
    cases hl : ep.chaptersUrlLastParsed with
    | none => rw [hl] at h; simp at h
    | some v =>
      rw [hl] at h
      simp only [decide_eq_false_iff_not, not_lt] at h ⊢
      omega

/-- The sync guard is false for an episode whose `chaptersUrlLastParsed` was
just set to a time not in the future. -/
lemma shouldSyncChapters_after_update (ep : Episode) (t1 t2 : Int) (hle : t1 ≤ t2) :
    shouldSyncChapters { ep with chaptersUrlLastParsed := some t1 } t2 = false := by
  unfold shouldSyncChapters
  have hd : decide (halfDay t2 < t1) = false := by
    rw [decide_eq_false_iff_not]
    unfold halfDay
    omega
  simp [hd]

/-- C5: rerunning the synchronizer at any time `t2 ≥ t1` after a completed
run leaves the store exactly as the first run left it and returns the same
chapters and count: the first run either recorded `chaptersUrlLastParsed = t1`
(making the guard false at `t2`) or already had a false guard, so the second
run performs no remote sync and creates nothing. -/
theorem retrieveLatestChapters_rerun_stable
    (db : DB) (t1 t2 : Int) (f : FetchOutcome) (o1 o2 : MediaRefOpsOracle) (id : String)
    (db1 : DB) (chs : List MediaRef) (n : Nat)
    (hle : t1 ≤ t2)
    (h1 : retrieveLatestChapters db t1 f o1 id = Except.ok (db1, chs, n)) :
    retrieveLatestChapters db1 t2 f o2 id = Except.ok (db1, chs, n) := by
  rw [retrieveLatestChapters.eq_def] at h1
  cases hfind : db.episodes.find? (fun e => e.id == id) with
  | none => rw [hfind] at h1; exact absurd h1 (by simp)
  | some ep =>
    rw [hfind] at h1
    simp only [Except.ok.injEq, Prod.mk.injEq] at h1
    obtain ⟨hdb, hchs, hn⟩ := h1
    by_cases hs : shouldSyncChapters ep t1 = true
    · rw [if_pos hs] at hdb hchs hn
      have heps : db1.episodes = (setChaptersUrlLastParsed db ep.id t1).episodes := by
        rw [← hdb]
        exact syncFromRemote_episodes ..
      have hfind2 : db1.episodes.find? (fun e => e.id == id) =
          some { ep with chaptersUrlLastParsed := some t1 } := by
        rw [heps, find?_setChaptersUrlLastParsed, hfind]
        simp
      rw [hdb] at hchs hn
      rw [retrieveLatestChapters.eq_def, hfind2]
      simp only [shouldSyncChapters_after_update ep t1 t2 hle, Bool.false_eq_true, if_false]
      rw [hchs] at hn
      rw [hchs, hn]
    · have hs' : shouldSyncChapters ep t1 = false := by
        simpa using hs
      rw [if_neg hs] at hdb hchs hn
      rw [hdb] at hchs hn
      have hfind2 : db1.episodes.find? (fun e => e.id == id) = some ep := by
        rw [← hdb]; exact hfind
      rw [retrieveLatestChapters.eq_def, hfind2]
      simp only [shouldSyncChapters_false_of_le hle hs', Bool.false_eq_true, if_false]
      rw [hchs] at hn
      rw [hchs, hn]

/-- Fixture: the store `diffExampleDB` as a completed sync at time `t` leaves
it. -/
def diffExampleSyncedDB (t : Int) : DB :=
  { diffExampleDB with
    episodes := [{ baseEpisode "e1" chapterDocUrl none with chaptersUrlLastParsed := some t }]
    mediaRefs := [{ baseChapter "m1" "e1" 10 "Old" with title := "A" },
                  { baseChapter "m2" "e1" 20 "B" with isPublic := false }] }

/-- Fixture: the chapter list a completed sync on `diffExampleDB` returns. -/
def diffExampleSyncedChapters : List MediaRef :=
  [{ baseChapter "m1" "e1" 10 "Old" with title := "A" },
   { baseChapter "m2" "e1" 20 "B" with isPublic := false }]

/-- C5 witness: the two-run stability at a concrete store and times 0 and 1. -/
theorem retrieveLatestChapters_rerun_stable_check :
    retrieveLatestChapters (diffExampleSyncedDB 0) 1 (.chapters [remoteChapterA]) noFailOracle "e1"
      = Except.ok (diffExampleSyncedDB 0, diffExampleSyncedChapters, 2) :=
  retrieveLatestChapters_rerun_stable diffExampleDB 0 1 (.chapters [remoteChapterA])
    noFailOracle noFailOracle "e1" (diffExampleSyncedDB 0) diffExampleSyncedChapters 2
    (by decide) (by decide)

/-- C6: the call fails exactly when the episode id does not exist, and for
an existing episode — whatever the fetch outcome, including document-level
failures — it returns the stored official chapters of that episode as they
stand after the run, ordered by startTime ascending, with their count. -/
theorem retrieveLatestChapters_returns_sorted_official :
    ∀ (db : DB) (now : Int) (f : FetchOutcome) (o : MediaRefOpsOracle) (id : String),
      (db.episodes.find? (fun e => e.id == id) = none →
        retrieveLatestChapters db now f o id = Except.error "Episode not found")
      ∧ (∀ ep, db.episodes.find? (fun e => e.id == id) = some ep →
          ∃ dbAfter chapters,
            retrieveLatestChapters db now f o id = Except.ok (dbAfter, chapters, chapters.length)
            ∧ List.Sorted chapterLE chapters
            ∧ List.Perm chapters (officialChaptersOf dbAfter id)) := by
  intro db now f o id
  constructor
  · intro h
    rw [retrieveLatestChapters.eq_def, h]
  · intro ep h
    rw [retrieveLatestChapters.eq_def, h]
    exact ⟨_, _, rfl, List.sorted_insertionSort chapterLE _,
      List.perm_insertionSort chapterLE _⟩

/-- C7: one reaper pass selects at most 100 episodes, each non-public with no
attached media reference; every selected episode is removed from the store;
the pass signals continuation exactly when 100 were selected; with 37
eligible dead episodes it signals false. -/
theorem removeDeadEpisodes_batch_spec :
    ∀ db : DB,
      (getDeadEpisodes db).length ≤ 100
      ∧ (∀ e, e ∈ getDeadEpisodes db →
          e.isPublic = false ∧ ∀ m, m ∈ db.mediaRefs → m.episodeId ≠ e.id)
      ∧ ((removeDeadEpisodes db).2 = true ↔ (getDeadEpisodes db).length = 100)
      ∧ (∀ e, e ∈ getDeadEpisodes db →
          ∀ e2, e2 ∈ (removeDeadEpisodes db).1.episodes → e2.id ≠ e.id)
      ∧ ((db.episodes.filter (isDeadEpisode db)).length = 37 →
          (removeDeadEpisodes db).2 = false) := by
  intro db
  refine ⟨?_, ?_, ?_, ?_, ?_⟩
  · unfold getDeadEpisodes
    rw [List.length_take]
    exact Nat.min_le_left ..
  · intro e he
    have hf : e ∈ db.episodes.filter (isDeadEpisode db) := List.mem_of_mem_take he
    have hd : isDeadEpisode db e = true := (List.mem_filter.mp hf).2
    unfold isDeadEpisode at hd
    simp only [Bool.and_eq_true, Bool.not_eq_true', List.all_eq_true] at hd
    obtain ⟨h1, h2⟩ := hd
    exact ⟨h1, fun m hm => bne_iff_ne.mp (h2 m hm)⟩
  · show ((getDeadEpisodes db).length == 100) = true ↔ (getDeadEpisodes db).length = 100
    exact beq_iff_eq
  · intro e he e2 he2
    have he2' : e2 ∈ db.episodes.filter
        (fun x => !((getDeadEpisodes db).any fun d => d.id == x.id)) := he2
    have hnot := (List.mem_filter.mp he2').2
    simp only [Bool.not_eq_true', List.any_eq_false] at hnot
    intro hEq
    exact hnot e he (by rw [hEq]; exact beq_self_eq_true e.id)
  · intro h37
    show ((getDeadEpisodes db).length == 100) = false
    unfold getDeadEpisodes
    rw [List.length_take, h37]
    decide

/-! ### Listing-path lemmas -/

/-- Closed form of what limitEpisodesQuerySize writes into `limitSort`. -/
lemma limitSort_limitEpisodesQuerySize (qb : EpisodesQuery) (b : Bool) (sort : String) :
    (limitEpisodesQuerySize qb b sort).limitSort =
      if b = true ∧ (sort = "top-past-hour" ∨ sort = "top-past-day" ∨ sort = "top-past-week"
          ∨ sort = "top-past-month" ∨ sort = "top-past-year" ∨ sort = "top-all-time"
          ∨ sort = "most-recent")
      then some sort else qb.limitSort := by
  unfold limitEpisodesQuerySize
  cases b with
  | false => simp
  | true => split_ifs <;> simp_all

/-- The direct-ordering helper only writes skip/take into the final query. -/
lemma finalQuery_handleGetEpisodesWithOrdering (db : DB) (now : Int) (qb : EpisodesQuery)
    (skip takeCount : Nat) :
    (handleGetEpisodesWithOrdering db now qb skip takeCount).finalQuery =
      { qb with skip := skip, take := takeCount } := rfl

/-- The recency path leaves `limitSort` untouched. -/
lemma handleMostRecent_finalQuery_limitSort (db : DB) (now : Int) (qb : EpisodesQuery)
    (k : RecencyKind) (ids : List String) (skip takeCount : Nat) :
    (handleMostRecentEpisodesQuery db now qb k ids skip takeCount).finalQuery.limitSort =
      qb.limitSort := by
  simp only [handleMostRecentEpisodesQuery]
  split_ifs <;> rfl

/-- The recency path leaves `requirePublic` untouched. -/
lemma handleMostRecent_finalQuery_requirePublic (db : DB) (now : Int) (qb : EpisodesQuery)
    (k : RecencyKind) (ids : List String) (skip takeCount : Nat) :
    (handleMostRecentEpisodesQuery db now qb k ids skip takeCount).finalQuery.requirePublic =
      qb.requirePublic := by
  simp only [handleMostRecentEpisodesQuery]
  split_ifs <;> rfl

/-- Closed form of the window predicate the by-podcast listing ends up with:
none on the single-id path, none on the multi-id most-recent (recency) path,
and otherwise whatever `limitEpisodesQuerySize` adds under
`shouldLimit = (ids.length > 10)`. -/
lemma limitSort_getEpisodesByPodcastIds (db : DB) (now : Int) (q : ListQuery) :
    (getEpisodesByPodcastIds db now q).finalQuery.limitSort =
      if (parseIdList q.podcastId).length = 1 then none
      else if q.sort = "most-recent" then none
      else if (parseIdList q.podcastId).length > 10
          ∧ (q.sort = "top-past-hour" ∨ q.sort = "top-past-day" ∨ q.sort = "top-past-week"
             ∨ q.sort = "top-past-month" ∨ q.sort = "top-past-year" ∨ q.sort = "top-all-time"
             ∨ q.sort = "most-recent")
        then some q.sort else none := by
  simp only [getEpisodesByPodcastIds]
  by_cases h1 : (parseIdList q.podcastId).length = 1
  · rw [if_pos h1, if_pos h1]
    rfl
  · rw [if_neg h1, if_neg h1]
    by_cases h2 : q.sort = "most-recent"
    · rw [if_pos h2, if_pos h2]
      rw [handleMostRecent_finalQuery_limitSort]
      rfl
    · rw [if_neg h2, if_neg h2]
      show (limitEpisodesQuerySize _ _ q.sort).limitSort = _
      rw [limitSort_limitEpisodesQuerySize]
      simp only [decide_eq_true_eq]
      split_ifs <;> rfl

/-- Fixture: a most-recent query naming eleven podcast ids. -/
def elevenPodcastsMostRecentQuery : ListQuery :=
  { includePodcast := false
    searchAllFieldsText := ""
    skip := 0
    take := 10
    sort := "most-recent"
    categories := ""
    podcastId := "p1,p2,p3,p4,p5,p6,p7,p8,p9,p10,p11" }

/-- C8 counterexample: eleven podcast ids are requested — more than 10 — yet
the listing takes the recency path and its episode query carries no
popularity-window predicate, refuting "the limiting predicate is applied if
and only if more than 10 podcast ids are requested" at this input. -/
theorem elevenPodcasts_mostRecent_no_limit :
    (parseIdList elevenPodcastsMostRecentQuery.podcastId).length > 10
    ∧ (getEpisodesByPodcastIds emptyDB 0 elevenPodcastsMostRecentQuery).finalQuery.limitSort
        = none := by
  refine ⟨by decide, by decide⟩

/-- C8 amended: the by-podcast listing applies the popularity-window limiting
predicate iff more than 10 podcast ids are requested and the sort is one of
the six top-* popularity sorts; a multi-id most-recent query takes the
recency path without limiting, and a single-id query never applies limiting,
regardless of sort. -/
theorem getEpisodesByPodcastIds_limit_characterization :
    ∀ (db : DB) (now : Int) (q : ListQuery),
      ((getEpisodesByPodcastIds db now q).finalQuery.limitSort.isSome = true
        ↔ ((parseIdList q.podcastId).length > 10
           ∧ (q.sort = "top-past-hour" ∨ q.sort = "top-past-day" ∨ q.sort = "top-past-week"
              ∨ q.sort = "top-past-month" ∨ q.sort = "top-past-year"
              ∨ q.sort = "top-all-time")))
      ∧ ((parseIdList q.podcastId).length = 1 →
          (getEpisodesByPodcastIds db now q).finalQuery.limitSort = none) := by
  intro db now q
  constructor
  · rw [limitSort_getEpisodesByPodcastIds]
    split_ifs with h1 h2 h3
    · simp only [Option.isSome_none, Bool.false_eq_true, false_iff]
      rintro ⟨hlen, -⟩
      omega
    · simp only [Option.isSome_none, Bool.false_eq_true, false_iff]
      rintro ⟨-, hs⟩
      rcases hs with h | h | h | h | h | h <;> rw [h2] at h <;> exact absurd h (by decide)
    · obtain ⟨hlen, hs⟩ := h3
      simp only [Option.isSome_some, true_iff]
      refine ⟨hlen, ?_⟩
      tauto
    · simp only [Option.isSome_none, Bool.false_eq_true, false_iff]
      rintro ⟨hlen, hs⟩
      exact h3 ⟨hlen, by tauto⟩
  · intro h1
    rw [limitSort_getEpisodesByPodcastIds, if_pos h1]

/-- C9: when the recency projection holds no row for the requested id set,
the most-recent path returns the empty page with totalCount 0 and never runs
a query against the episode table. -/
theorem handleMostRecent_empty_projection
    (db : DB) (now : Int) (qb : EpisodesQuery) (k : RecencyKind) (ids : List String)
    (skip takeCount : Nat)
    (h : (recencyRows db k).filter (fun r => ids.contains r.groupId) = []) :
    (handleMostRecentEpisodesQuery db now qb k ids skip takeCount).episodes = []
    ∧ (handleMostRecentEpisodesQuery db now qb k ids skip takeCount).totalCount = 0
    ∧ (handleMostRecentEpisodesQuery db now qb k ids skip takeCount).ranEpisodeQuery = false := by
  simp only [handleMostRecentEpisodesQuery, h]
  exact ⟨rfl, rfl, rfl⟩

/-- C9 witness: the by-category most-recent listing over an empty projection. -/
theorem handleMostRecent_empty_projection_check :
    (handleMostRecentEpisodesQuery emptyDB 0 (generateEpisodeSelects false "")
        RecencyKind.categoriesIds ["c1"] 0 10).episodes = []
    ∧ (handleMostRecentEpisodesQuery emptyDB 0 (generateEpisodeSelects false "")
        RecencyKind.categoriesIds ["c1"] 0 10).totalCount = 0
    ∧ (handleMostRecentEpisodesQuery emptyDB 0 (generateEpisodeSelects false "")
        RecencyKind.categoriesIds ["c1"] 0 10).ranEpisodeQuery = false :=
  handleMostRecent_empty_projection emptyDB 0 (generateEpisodeSelects false "")
    RecencyKind.categoriesIds ["c1"] 0 10 (by decide)

/-- Every episode coming out of the direct-ordering helper under a public-only
query is public: the page is drawn from rows matching the composed predicate,
and description truncation leaves the flag alone. -/
lemma isPublic_of_mem_handleGetEpisodesWithOrdering
    (db : DB) (now : Int) (qb : EpisodesQuery) (skip takeCount : Nat) (e : Episode)
    (hq : qb.requirePublic = true)
    (he : e ∈ (handleGetEpisodesWithOrdering db now qb skip takeCount).episodes) :
    e.isPublic = true := by
  simp only [handleGetEpisodesWithOrdering, cleanEpisodes, List.mem_map] at he
  obtain ⟨x, hx, rfl⟩ := he
  have hx2 : x ∈ db.episodes.filter
      (episodeMatches db now { qb with skip := skip, take := takeCount }) :=
    ((List.take_sublist _ _).trans (List.drop_sublist _ _)).mem hx
  have hm := (List.mem_filter.mp hx2).2
  unfold episodeMatches at hm
  simp only [Bool.and_eq_true] at hm
  obtain ⟨⟨⟨⟨⟨⟨-, -⟩, -⟩, -⟩, hpub⟩, -⟩, -⟩ := hm
  have hq2 : ({ qb with skip := skip, take := takeCount } : EpisodesQuery).requirePublic
      = true := hq
  rw [hq2] at hpub
  simp only [Bool.not_true, Bool.false_or] at hpub
  simpa [cleanEpisode] using hpub

/-- Fixture: a non-public episode attached to podcast "pod1". -/
def nonPublicEpisode : Episode :=
  { baseEpisode "eNP" none none with isPublic := false }

/-- Fixture: a store whose recency projections (by category "c1" and by
podcast "pod1") both point at the non-public episode. -/
def recencyDemoDB : DB :=
  { emptyDB with
    episodes := [nonPublicEpisode]
    podcasts := [{ id := "pod1", categoryIds := ["c1"] }]
    recentEpisodesByCategory := [{ episodeId := "eNP", groupId := "c1", pubDate := 5 }]
    recentEpisodesByPodcast := [{ episodeId := "eNP", groupId := "pod1", pubDate := 5 }] }

/-- Fixture: the most-recent by-category listing request for category "c1". -/
def mostRecentByCategoryQuery : ListQuery :=
  { includePodcast := false
    searchAllFieldsText := ""
    skip := 0
    take := 10
    sort := "most-recent"
    categories := "c1"
    podcastId := "" }

/-- Fixture: the most-recent listing request for two podcast ids. -/
def mostRecentTwoPodcastsQuery : ListQuery :=
  { includePodcast := false
    searchAllFieldsText := ""
    skip := 0
    take := 10
    sort := "most-recent"
    categories := ""
    podcastId := "pod1,pod2" }

/-- C10: the recency-index-assisted most-recent paths (by category ids, and
by more than one podcast id) build their episode query without the
public-visibility predicate, and a non-public episode appearing in the
projection is indeed returned by both, while every other listing path —
list-all, by-category with any other sort, by a single podcast id, and
by-podcast with any other sort — returns only public episodes. -/
theorem recencyPaths_lack_public_filter :
    (∀ (db : DB) (now : Int) (q : ListQuery), q.sort = "most-recent" →
      (getEpisodesByCategoryIds db now q).finalQuery.requirePublic = false)
    ∧ (∀ (db : DB) (now : Int) (q : ListQuery), q.sort = "most-recent" →
        (parseIdList q.podcastId).length ≠ 1 →
        (getEpisodesByPodcastIds db now q).finalQuery.requirePublic = false)
    ∧ nonPublicEpisode.isPublic = false
    ∧ nonPublicEpisode ∈
        (getEpisodesByCategoryIds recencyDemoDB 0 mostRecentByCategoryQuery).episodes
    ∧ nonPublicEpisode ∈
        (getEpisodesByPodcastIds recencyDemoDB 0 mostRecentTwoPodcastsQuery).episodes
    ∧ (∀ (db : DB) (now : Int) (q : ListQuery) (e : Episode),
        e ∈ (getEpisodes db now q).episodes → e.isPublic = true)
    ∧ (∀ (db : DB) (now : Int) (q : ListQuery) (e : Episode), q.sort ≠ "most-recent" →
        e ∈ (getEpisodesByCategoryIds db now q).episodes → e.isPublic = true)
    ∧ (∀ (db : DB) (now : Int) (q : ListQuery) (e : Episode),
        ((parseIdList q.podcastId).length = 1 ∨ q.sort ≠ "most-recent") →
        e ∈ (getEpisodesByPodcastIds db now q).episodes → e.isPublic = true) := by
  refine ⟨?_, ?_, by decide, by decide, by decide, ?_, ?_, ?_⟩
  · intro db now q hs
    simp only [getEpisodesByCategoryIds]
    rw [if_pos hs, handleMostRecent_finalQuery_requirePublic]
    rfl
  · intro db now q hs hne
    simp only [getEpisodesByPodcastIds]
    rw [if_neg hne, if_pos hs, handleMostRecent_finalQuery_requirePublic]
    rfl
  · intro db now q e he
    exact isPublic_of_mem_handleGetEpisodesWithOrdering db now _ q.skip q.take e rfl he
  · intro db now q e hs he
    simp only [getEpisodesByCategoryIds] at he
    rw [if_neg hs] at he
    exact isPublic_of_mem_handleGetEpisodesWithOrdering db now _ q.skip q.take e rfl he
  · intro db now q e hcase he
    simp only [getEpisodesByPodcastIds] at he
    by_cases h1 : (parseIdList q.podcastId).length = 1
    · rw [if_pos h1] at he
      exact isPublic_of_mem_handleGetEpisodesWithOrdering db now _ q.skip q.take e rfl he
    · rcases hcase with h1x | hs
      · exact absurd h1x h1
      · rw [if_neg h1, if_neg hs] at he
        exact isPublic_of_mem_handleGetEpisodesWithOrdering db now _ q.skip q.take e rfl he
